import Mathlib

/-!
# Verification of the first-session engagement heuristic

Shallow embedding of the decision core of the `AppComponent` of the
zawgyi-unicode-converter single-page application (`src/unnamed/part_001`):
the persistent counter store, the usage classifier
(`getCurVerAppUsedCount`, `checkAppUsedBefore`), the navigation
interceptor (the `NavigationEnd` subscription body), the share
eligibility predicate (`shouldShowSocialSharingSheet`), the counter
writer (`increaseAppUsedCount`) and the theme resolver
(`detectDarkTheme` / `detectDarkThemeChange`).

JavaScript numbers are modelled as `Option Int` (`none` is `NaN`; the
counters only ever hold integer values), strings as `String`, and the
key/value cache as a structure with one field per key family the
component uses.
-/

namespace AppShell

/-- JavaScript number restricted to integral values; `none` models `NaN`. -/
abbrev JsNum := Option Int

/-- JavaScript `<` on numbers: any comparison with `NaN` is false. -/
def jsLt : JsNum → JsNum → Bool
  | some a, some b => decide (a < b)
  | _, _ => false

/-- JavaScript `>` on numbers, written through `jsLt`. -/
def jsGt (a b : JsNum) : Bool := jsLt b a

/-- JavaScript `+` on numbers: `NaN` is absorbing. -/
def jsAdd : JsNum → JsNum → JsNum
  | some a, some b => some (a + b)
  | _, _ => none

/-- JavaScript truthiness of a number: `0` and `NaN` are falsy. -/
def jsNumTruthy : JsNum → Bool
  | none => false
  | some n => decide (n ≠ 0)

/-- JavaScript truthiness of a possibly absent string: `null`, `undefined`
and the empty string are falsy. -/
def strTruthy : Option String → Bool
  | none => false
  | some s => !s.data.isEmpty

/-- JavaScript truthiness of a possibly absent boolean. -/
def boolTruthy : Option Bool → Bool
  | none => false
  | some b => b

/-- JavaScript truthiness of a possibly absent number. -/
def numTruthy : Option JsNum → Bool
  | none => false
  | some v => jsNumTruthy v

/-- JavaScript `toLowerCase` / `toLocaleLowerCase` on the ASCII config
strings the component compares against. -/
def jsToLower (s : String) : String := String.mk (s.data.map Char.toLower)

/-- Value of a run of decimal digit characters, most significant first. -/
def foldDigits (cs : List Char) : Nat :=
  cs.foldl (fun a c => a * 10 + (c.toNat - 48)) 0

/-- Decimal digit characters of `n`, most significant first; structural
recursion on a fuel argument so that the kernel can evaluate it. -/
def natToCharsAux : Nat → Nat → List Char
  | 0, _ => []
  | fuel + 1, n =>
    if n < 10 then [Char.ofNat (48 + n)]
    else natToCharsAux fuel (n / 10) ++ [Char.ofNat (48 + n % 10)]

/-- Decimal digit characters of `n`; fuel `n + 1` always suffices. -/
def natToChars (n : Nat) : List Char := natToCharsAux (n + 1) n

/-- JavaScript template interpolation of a number, `NaN` included. -/
def jsNumToString : JsNum → String
  | none => "NaN"
  | some i =>
    if i < 0 then String.mk ('-' :: natToChars i.natAbs)
    else String.mk (natToChars i.natAbs)

/-- Shared digit-run step of `jsParseInt` after the optional sign. -/
def jsParseIntCore (neg : Bool) (cs : List Char) : JsNum :=
  let ds := cs.takeWhile Char.isDigit
  if ds.isEmpty then none
  else if neg then some (-(foldDigits ds : Int))
  else some ((foldDigits ds : Int))

/-- JavaScript `parseInt(s, 10)`: leading whitespace is skipped, an
optional sign is read, then the longest run of decimal digits; no digit
yields `NaN`. -/
def jsParseInt (s : String) : JsNum :=
  match s.data.dropWhile Char.isWhitespace with
  | [] => none
  | c :: rest =>
    if c = '-' then jsParseIntCore true rest
    else if c = '+' then jsParseIntCore false rest
    else jsParseIntCore false (c :: rest)

/-- The persistent key/value cache, one field per key family used by the
component: `appUsedCount-v<version>` (stored as decimal strings),
`appUsed`, `socialSharingSheetShownIn` (stored as a number),
`socialSharingYesButtonPressed` / `socialSharingNoButtonPressed`
(stored as booleans) and `isDarkMode`. -/
structure CacheStore where
  appUsedCount : String → Option String
  appUsed : Option String
  socialSharingSheetShownIn : Option JsNum
  socialSharingYesButtonPressed : Option Bool
  socialSharingNoButtonPressed : Option Bool
  isDarkMode : Option String

/-- The entirely empty store (every key absent). -/
def emptyCache : CacheStore :=
  ⟨fun _ => none, none, none, none, none, none⟩

/-- The hard-coded list of previously shipped versions scanned by
`checkAppUsedBefore` (source lines 461-485). -/
def oldVersions : List String :=
  ["3.3.3", "3.3.2", "3.3.1", "3.3.0", "3.2.0", "3.1.0", "3.0.0",
   "2.0.7", "2.0.6", "2.0.5", "2.0.4", "2.0.3", "2.0.2", "2.0.1",
   "2.0.0", "2.0.0-preview1",
   "1.1.5", "1.1.4", "1.1.3", "1.1.2", "1.1.1", "1.0.1", "1.0.0"]

/-- `getCurVerAppUsedCount` (source lines 437-444): read the current
version's stored count; a falsy (absent or empty) entry yields `0`, a
truthy one is handed to `parseInt`. -/
def getCurVerAppUsedCount (cache : CacheStore) (curVer : String) : JsNum :=
  match cache.appUsedCount curVer with
  | some s => if s.data.isEmpty then some 0 else jsParseInt s
  | none => some 0

/-- `checkAppUsedBefore` (source lines 446-495): false outside a browser;
else true on a positive current count, on `appUsed === 'true'`, or on any
truthy stored count of a version in `oldVersions`. -/
def checkAppUsedBefore (isBrowser : Bool) (curVerAppUsedCount : JsNum)
    (cache : CacheStore) : Bool :=
  if !isBrowser then false
  else if jsGt curVerAppUsedCount (some 0) then true
  else if cache.appUsed = some "true" then true
  else oldVersions.any fun ver => strTruthy (cache.appUsedCount ver)

/-- `increaseAppUsedCount` (source lines 497-507): store the incremented
session count for the current version and, for a first-time installation,
set the `appUsed` marker. -/
def increaseAppUsedCount (isBrowser : Bool) (curVer : String)
    (curVerAppUsedCount : JsNum) (isAppUsedBefore : Bool)
    (cache : CacheStore) : CacheStore :=
  if !isBrowser then cache
  else
    let cache :=
      { cache with
        appUsedCount := fun v =>
          if v = curVer then some (jsNumToString (jsAdd curVerAppUsedCount (some 1)))
          else cache.appUsedCount v }
    if !isAppUsedBefore then { cache with appUsed := some "true" } else cache

/-- Ambient platform signals read by the share predicate: whether
`navigator` is an object and whether it reports being online. -/
structure Env where
  hasNavigator : Bool
  onLine : Bool

/-- `shouldShowSocialSharingSheet` (source lines 509-531). -/
def shouldShowSocialSharingSheet (curVerAppUsedCount : JsNum) (env : Env)
    (cache : CacheStore) : Bool :=
  if jsLt curVerAppUsedCount (some 5) || !env.hasNavigator || !env.onLine then false
  else if boolTruthy cache.socialSharingYesButtonPressed then false
  else if boolTruthy cache.socialSharingNoButtonPressed then false
  else if numTruthy cache.socialSharingSheetShownIn &&
          jsLt curVerAppUsedCount
            (jsAdd (cache.socialSharingSheetShownIn.getD none) (some 7)) then false
  else true

/-- Outcome of one delivery of a `NavigationEnd` event: which decision
branch of the interceptor fired, if any. -/
inductive NavAction
  | redirectToAbout
  | showShareSheet
  | defaultIncrement
  | noAction
deriving DecidableEq

/-- Route data carried by a completed navigation: the resolved page-type
tag (`"home-page"`, `"about-page"`, ...) when the route declares one. -/
structure NavEvent where
  pageType : Option String

/-- Per-session component state: the readonly fields computed in the
constructor plus the mutable fields of the subscription body. -/
structure AppState where
  curVer : String
  isBrowser : Bool
  cache : CacheStore
  curVerAppUsedCount : JsNum
  isAppUsedBefore : Bool
  isFirstNavigation : Bool
  isHomePage : Bool
  aboutPageNavigated : Bool
  hideSponsorSection : Bool

/-- Guard of the first-ever-use redirect branch (source lines 227-233). -/
def firstUseRedirectCond (s : AppState) : Bool :=
  s.isBrowser && s.isHomePage && s.isFirstNavigation &&
    (s.curVerAppUsedCount == some 0) && s.isAppUsedBefore

/-- Guard of the share-prompt branch (source lines 238-243). -/
def sharePromptCond (env : Env) (s : AppState) : Bool :=
  s.isBrowser && s.isHomePage && s.isFirstNavigation &&
    shouldShowSocialSharingSheet s.curVerAppUsedCount env s.cache

/-- Updates performed by the subscription body before the branch chain
(source lines 206, 223-225): recompute `isHomePage` and latch
`aboutPageNavigated` on reaching the about page. -/
def updateRouteFlags (s : AppState) (ev : NavEvent) : AppState :=
  let s := { s with isHomePage := ev.pageType == some "home-page" }
  if !s.aboutPageNavigated && s.isBrowser && (ev.pageType == some "about-page")
  then { s with aboutPageNavigated := true } else s

/-- Branch chain of the subscription body (source lines 227-252). -/
def navDecision (env : Env) (s : AppState) : AppState × NavAction :=
  if firstUseRedirectCond s then
    let s := { s with isFirstNavigation := false }
    let s := { s with
      cache := increaseAppUsedCount s.isBrowser s.curVer s.curVerAppUsedCount
        s.isAppUsedBefore s.cache }
    ({ s with hideSponsorSection := true }, NavAction.redirectToAbout)
  else if sharePromptCond env s then
    let s := { s with isFirstNavigation := false }
    let s := { s with
      cache := increaseAppUsedCount s.isBrowser s.curVer s.curVerAppUsedCount
        s.isAppUsedBefore s.cache }
    let s := { s with hideSponsorSection := true }
    let s := { s with
      cache := { s.cache with
        socialSharingSheetShownIn := some s.curVerAppUsedCount } }
    (s, NavAction.showShareSheet)
  else if s.isFirstNavigation then
    let s := { s with isFirstNavigation := false }
    ({ s with
       cache := increaseAppUsedCount s.isBrowser s.curVer s.curVerAppUsedCount
         s.isAppUsedBefore s.cache }, NavAction.defaultIncrement)
  else (s, NavAction.noAction)

/-- One delivery of a `NavigationEnd` event to the subscription body. -/
def onNavigationEnd (env : Env) (s : AppState) (ev : NavEvent) :
    AppState × NavAction :=
  navDecision env (updateRouteFlags s ev)

/-- One navigation step, taking the ambient environment together with the
event (the online signal may differ between events). -/
def navStep (s : AppState) (p : Env × NavEvent) : AppState × NavAction :=
  onNavigationEnd p.1 s p.2

/-- Actions produced by a sequence of navigation events within one
session, in order. -/
def navTrace (s : AppState) : List (Env × NavEvent) → List NavAction
  | [] => []
  | p :: ps => (navStep s p).2 :: navTrace (navStep s p).1 ps

/-- Final state after a sequence of navigation events within one session. -/
def navRun (s : AppState) : List (Env × NavEvent) → AppState
  | [] => s
  | p :: ps => navRun (navStep s p).1 ps

/-- Effect of `updateConfigValues` (source lines 533-538) on the
sponsor-section flag: a truthy config string lowercasing to `"false"`
hides the section, anything else leaves the flag alone. -/
def updateConfigHideSponsor (sponsorSectionVisibleStr : Option String)
    (current : Bool) : Bool :=
  if strTruthy sponsorSectionVisibleStr &&
      (jsToLower (sponsorSectionVisibleStr.getD "") == "false") then true
  else current

/-- Constructor of the component (source lines 160-176): in a browser the
readonly count and used-before classification are computed from the
store and the config is applied; on the server the defaults stand. -/
def initAppState (curVer : String) (isBrowser : Bool)
    (sponsorCfg : Option String) (cache : CacheStore) : AppState :=
  let c := if isBrowser then getCurVerAppUsedCount cache curVer else some 0
  let used := if isBrowser then checkAppUsedBefore isBrowser c cache else false
  let hide := if isBrowser then updateConfigHideSponsor sponsorCfg false else false
  { curVer := curVer, isBrowser := isBrowser, cache := cache,
    curVerAppUsedCount := c, isAppUsedBefore := used,
    isFirstNavigation := true, isHomePage := true,
    aboutPageNavigated := false, hideSponsorSection := hide }

/-- Store left behind by one whole session: construct the component over
the store and deliver a list of navigation events. -/
def runSession (curVer : String) (isBrowser : Bool) (sponsorCfg : Option String)
    (cache : CacheStore) (evs : List (Env × NavEvent)) : CacheStore :=
  (navRun (initAppState curVer isBrowser sponsorCfg cache) evs).cache

/-- Store left behind by a list of sessions, each with its own platform
context, config value and event sequence. -/
def runSessions (curVer : String) (cache : CacheStore) :
    List (Bool × Option String × List (Env × NavEvent)) → CacheStore
  | [] => cache
  | (isBrowser, cfg, evs) :: rest =>
    runSessions curVer (runSession curVer isBrowser cfg cache evs) rest

/-- Used-before classification of a store as a later session would compute
it: `checkAppUsedBefore` in a browser over the freshly read count. -/
def hasUsedBeforeNow (curVer : String) (cache : CacheStore) : Bool :=
  checkAppUsedBefore true (getCurVerAppUsedCount cache curVer) cache

/-- Platform color-scheme capabilities: whether the

`(prefers-color-scheme)` media query is supported, its current `dark`
match, and whether the query object exposes `addEventListener`. -/
structure MediaEnv where
  supported : Bool
  matchesDark : Bool
  hasAddEventListener : Bool

/-- `detectDarkThemeChange` (source lines 406-423): returns the resolved
dark flag and whether the change listener was registered. -/
def detectDarkThemeChange (media : MediaEnv) (defaultValue : Bool)
    (forceDefaultValue : Bool) : Bool × Bool :=
  if media.supported then
    ((if forceDefaultValue then defaultValue else media.matchesDark),
     media.hasAddEventListener)
  else (defaultValue, false)

/-- `detectDarkTheme` (source lines 392-404): a truthy `colorMode` config
override of `"dark"` or `"light"` fixes the default; otherwise the cached
`isDarkMode` string decides, defaulting to dark when absent. -/
def detectDarkTheme (colorMode : Option String)
    (cachedIsDarkMode : Option String) (media : MediaEnv) : Bool × Bool :=
  let defaultValue :=
    if strTruthy colorMode && (jsToLower (colorMode.getD "") == "dark") then true
    else if strTruthy colorMode && (jsToLower (colorMode.getD "") == "light") then false
    else match cachedIsDarkMode with
      | none => true
      | some s => s == "true"
  detectDarkThemeChange media defaultValue true

/-- Delivery of one `change` event of the media query (source lines
415-419): when the listener was registered the resolved value becomes the
event's match, otherwise nothing fires. -/
def onColorSchemeChange (subscribed : Bool) (current : Bool)
    (eventMatches : Bool) : Bool :=
  if subscribed then eventMatches else current

/-! ## Concrete sample inputs used by the witness theorems -/

/-- An online browser environment. -/
def envOnline : Env := ⟨true, true⟩

/-- A store whose only entry is the prompt-shown marker at `5`. -/
def cacheMarker5 : CacheStore :=
  { emptyCache with socialSharingSheetShownIn := some (some 5) }

/-- A store whose only entry is the prompt-shown marker at `0`. -/
def cacheMarker0 : CacheStore :=
  { emptyCache with socialSharingSheetShownIn := some (some 0) }

/-- A store where the user already accepted the share prompt. -/
def cacheYes : CacheStore :=
  { emptyCache with socialSharingYesButtonPressed := some true }

/-- A store whose current-version count entry is the unparsable string
`"abc"`. -/
def cacheAbc : CacheStore :=
  { emptyCache with
    appUsedCount := fun v => if v = "4.0.0" then some "abc" else none }

/-- A store carrying only the lifetime `appUsed` marker. -/
def cacheUsedFlag : CacheStore := { emptyCache with appUsed := some "true" }

/-- A platform with a live, listenable color-scheme media query that
currently matches light. -/
def mediaLive : MediaEnv := ⟨true, false, true⟩

/-- Navigation event completing on the home page. -/
def evHome : NavEvent := ⟨some "home-page"⟩

/-- A session-start state over `cacheUsedFlag` in a browser. -/
def stateW : AppState := initAppState "4.0.0" true none cacheUsedFlag

/-- A home-page navigation in an online browser. -/
def pHome : Env × NavEvent := (envOnline, evHome)

/-! ## Decimal rendering and parsing round trip -/

/-- Facts about the decimal digit characters `natToCharsAux` emits. -/
theorem digitChar_facts (d : Nat) (h : d < 10) :
    (Char.ofNat (48 + d)).isDigit = true ∧
    (Char.ofNat (48 + d)).isWhitespace = false ∧
    Char.ofNat (48 + d) ≠ '-' ∧ Char.ofNat (48 + d) ≠ '+' ∧
    (Char.ofNat (48 + d)).toNat = 48 + d := by
  interval_cases d <;> exact ⟨rfl, rfl, by decide, by decide, rfl⟩

/-- With enough fuel, `natToCharsAux` emits a non-empty run of decimal
digit characters whose value is the input. -/
theorem natToCharsAux_spec : ∀ fuel n : Nat, n < fuel →
    natToCharsAux fuel n ≠ [] ∧
    (∀ c ∈ natToCharsAux fuel n, ∃ d, d < 10 ∧ c = Char.ofNat (48 + d)) ∧
    foldDigits (natToCharsAux fuel n) = n := by
  intro fuel
  induction fuel with
  | zero => intro n h; exact absurd h (Nat.not_lt_zero n)
  | succ fuel ih =>
    intro n hn
    by_cases h10 : n < 10
    · simp only [natToCharsAux, if_pos h10]
      refine ⟨by simp, ?_, ?_⟩
      · intro c hc
        simp only [List.mem_singleton] at hc
        exact ⟨n, h10, hc⟩
      · simp only [foldDigits, List.foldl_cons, List.foldl_nil]
        have := (digitChar_facts n h10).2.2.2.2
        omega
    · have hge : 10 ≤ n := Nat.le_of_not_lt h10
      have hdivlt : n / 10 < fuel := by
        have : n / 10 < n := Nat.div_lt_self (by omega) (by omega)
        omega
      obtain ⟨hne, hdig, hval⟩ := ih (n / 10) hdivlt
      simp only [natToCharsAux, if_neg h10]
      refine ⟨by simp, ?_, ?_⟩
      · intro c hc
        rcases List.mem_append.mp hc with hc | hc
        · exact hdig c hc
        · simp only [List.mem_singleton] at hc
          exact ⟨n % 10, Nat.mod_lt _ (by omega), hc⟩
      · simp only [foldDigits, List.foldl_append, List.foldl_cons,
          List.foldl_nil] at hval ⊢
        rw [hval]
        have := (digitChar_facts (n % 10) (Nat.mod_lt _ (by omega))).2.2.2.2
        omega

/-- The fuel `n + 1` of `natToChars` always suffices. -/
theorem natToChars_spec (n : Nat) :
    natToChars n ≠ [] ∧
    (∀ c ∈ natToChars n, ∃ d, d < 10 ∧ c = Char.ofNat (48 + d)) ∧
    foldDigits (natToChars n) = n :=
  natToCharsAux_spec (n + 1) n (Nat.lt_succ_self n)

/-- A list all of whose elements satisfy `p` is its own `takeWhile`. -/
theorem takeWhile_of_all (p : Char → Bool) :
    ∀ cs : List Char, (∀ c ∈ cs, p c = true) → cs.takeWhile p = cs := by
  intro cs h
  induction cs with
  | nil => rfl
  | cons c cs ih =>
    rw [List.takeWhile_cons, if_pos (h c (List.mem_cons_self c cs))]
    rw [ih fun x hx => h x (List.mem_cons_of_mem c hx)]

/-- Data of an explicitly constructed string. -/
theorem mk_data (l : List Char) : (String.mk l).data = l := rfl

/-- Parsing the decimal rendering of a natural number gives it back. -/
theorem jsParseInt_mk_natToChars (k : Nat) :
    jsParseInt (String.mk (natToChars k)) = some (k : Int) := by
  obtain ⟨hne, hdig, hval⟩ := natToChars_spec k
  rcases hcs : natToChars k with _ | ⟨c, rest⟩
  · exact absurd hcs hne
  · rw [hcs] at hdig hval
    obtain ⟨d, hd, rfl⟩ := hdig c (List.mem_cons_self c rest)
    have hfacts := digitChar_facts d hd
    have hall : ∀ x ∈ Char.ofNat (48 + d) :: rest, x.isDigit = true := by
      intro x hx
      obtain ⟨e, he, rfl⟩ := hdig x hx
      exact (digitChar_facts e he).1
    have hdw : List.dropWhile Char.isWhitespace
        (String.mk (Char.ofNat (48 + d) :: rest)).data
        = Char.ofNat (48 + d) :: rest := by
      rw [mk_data, List.dropWhile_cons, hfacts.2.1]
      simp
    unfold jsParseInt
    rw [hdw]
    dsimp only
    rw [if_neg hfacts.2.2.1, if_neg hfacts.2.2.2.1]
    unfold jsParseIntCore
    rw [takeWhile_of_all _ _ hall]
    simp only [List.isEmpty_cons, Bool.false_eq_true, if_false]
    rw [hval]

/-- Rendering then parsing a non-negative integer round-trips. -/
theorem jsParseInt_jsNumToString_nonneg (n : Int) (h : 0 ≤ n) :
    jsParseInt (jsNumToString (some n)) = some n := by
  simp only [jsNumToString]
  rw [if_neg (by omega : ¬ n < 0), jsParseInt_mk_natToChars]
  rw [Int.natAbs_of_nonneg h]

/-- The rendering of a JavaScript number is never the empty string. -/
theorem jsNumToString_data_ne_nil (c : JsNum) : (jsNumToString c).data ≠ [] := by
  cases c with
  | none => decide
  | some i =>
    simp only [jsNumToString]
    by_cases h : i < 0
    · rw [if_pos h]; simp
    · rw [if_neg h]
      have := (natToChars_spec i.natAbs).1
      simpa using this

/-! ## Share eligibility predicate (claims C3, C4, C5) -/

/-- C3: for every state whose current-version usage count is an integer
below 5 the share eligibility predicate returns false, whatever the
online signal, the response flags and the prompt-shown marker hold. -/
theorem shouldShow_false_of_count_lt_five (env : Env) (cache : CacheStore)
    (k : Int) (h : k < 5) :
    shouldShowSocialSharingSheet (some k) env cache = false := by
  unfold shouldShowSocialSharingSheet
  have hlt : jsLt (some k) (some 5) = true := by
    simp [jsLt, h]
  simp [hlt]

/-- Witness for C3 at the boundary count 4. -/
theorem shouldShow_false_of_count_lt_five_witness :
    shouldShowSocialSharingSheet (some 4) envOnline emptyCache = false :=
  shouldShow_false_of_count_lt_five envOnline emptyCache 4 (by norm_num)

/-- C4 (amended): when the stored prompt-shown marker holds a non-zero
integer, the predicate returns true on an integer count only once the
count has reached the marker plus 7. -/
theorem shouldShow_cooldown (env : Env) (cache : CacheStore) (k m : Int)
    (hm : cache.socialSharingSheetShownIn = some (some m)) (hm0 : m ≠ 0)
    (h : shouldShowSocialSharingSheet (some k) env cache = true) :
    m + 7 ≤ k := by
  by_contra hlt
  push_neg at hlt
  unfold shouldShowSocialSharingSheet at h
  rw [hm] at h
  have htr : numTruthy (some (some m)) = true := by
    simp [numTruthy, jsNumTruthy, hm0]
  have hk : jsLt (some k) (jsAdd (some m) (some 7)) = true := by
    simp [jsAdd, jsLt, hlt]
  simp [htr, hk] at h

/-- Witness for C4: count 12 against marker 5 passes and 12 is at least
5 + 7. -/
theorem shouldShow_cooldown_witness :
    shouldShowSocialSharingSheet (some 12) envOnline cacheMarker5 = true ∧
    (5 : Int) + 7 ≤ 12 :=
  ⟨by decide, shouldShow_cooldown envOnline cacheMarker5 12 5 (by decide)
    (by decide) (by decide)⟩

/-- Counterexample to C4 as stated: a present prompt-shown marker of 0 is
falsy, so the predicate returns true at count 5 although 5 is below
0 + 7. -/
theorem shouldShow_cooldown_cex :
    cacheMarker0.socialSharingSheetShownIn = some (some 0) ∧
    shouldShowSocialSharingSheet (some 5) envOnline cacheMarker0 = true ∧
    ¬ ((0 : Int) + 7 ≤ 5) := by
  refine ⟨rfl, by decide, by decide⟩

/-- C5: once either stored response flag is true the predicate is false,
for every count, environment and marker. -/
theorem shouldShow_false_of_response_flag (env : Env) (cache : CacheStore)
    (c : JsNum)
    (h : cache.socialSharingYesButtonPressed = some true ∨
      cache.socialSharingNoButtonPressed = some true) :
    shouldShowSocialSharingSheet c env cache = false := by
  unfold shouldShowSocialSharingSheet
  rcases h with h | h <;> simp [h, boolTruthy]

/-- Witness for C5 at an otherwise eligible state. -/
theorem shouldShow_false_of_response_flag_witness :
    shouldShowSocialSharingSheet (some 10) envOnline cacheYes = false :=
  shouldShow_false_of_response_flag envOnline cacheYes (some 10) (Or.inl rfl)

/-! ## Usage classifier (claims C6, C7) -/

/-- Browser-side `checkAppUsedBefore` as one boolean formula. -/
theorem checkAppUsedBefore_browser_eq (c : JsNum) (cache : CacheStore) :
    checkAppUsedBefore true c cache =
      (jsGt c (some 0) || (cache.appUsed == some "true") ||
        oldVersions.any fun ver => strTruthy (cache.appUsedCount ver)) := by
  unfold checkAppUsedBefore
  by_cases h1 : jsGt c (some 0) = true
  · simp [h1]
  · by_cases h2 : cache.appUsed = some "true"
    · simp [h1, h2]
    · simp [h1, h2]

/-- C6: the used-before classifier is false outside a browser; in a
browser it is true exactly on a positive current count, on the stored
`appUsed` marker equalling the string true, or on some version of the
historical list having a truthy stored count; on the empty store with
count 0 it is false. -/
theorem checkAppUsedBefore_spec (c : JsNum) (cache : CacheStore) :
    checkAppUsedBefore false c cache = false ∧
    (checkAppUsedBefore true c cache = true ↔
      (jsGt c (some 0) = true ∨ cache.appUsed = some "true" ∨
        ∃ v ∈ oldVersions, strTruthy (cache.appUsedCount v) = true)) ∧
    checkAppUsedBefore true (some 0) emptyCache = false := by
  refine ⟨rfl, ?_, by decide⟩
  rw [checkAppUsedBefore_browser_eq]
  simp [List.any_eq_true, or_assoc]

/-- C7 (amended): the current-version count read returns 0 on an absent or
empty entry; a non-empty entry is handed to `parseInt`, so an entry with
no leading integer yields `NaN`, not 0. -/
theorem getCurVerAppUsedCount_spec (cache : CacheStore) (v : String) :
    (cache.appUsedCount v = none → getCurVerAppUsedCount cache v = some 0) ∧
    (∀ s, cache.appUsedCount v = some s → s.data = [] →
      getCurVerAppUsedCount cache v = some 0) ∧
    (∀ s, cache.appUsedCount v = some s → s.data ≠ [] → jsParseInt s = none →
      getCurVerAppUsedCount cache v = none) := by
  refine ⟨?_, ?_, ?_⟩
  · intro h
    simp [getCurVerAppUsedCount, h]
  · intro s h he
    simp [getCurVerAppUsedCount, h, he]
  · intro s h hne hp
    simp only [getCurVerAppUsedCount, h]
    rw [if_neg (by simpa using hne)]
    exact hp

/-- Witness for C7's amended statement: an absent entry reads as 0 and the
unparsable entry of `cacheAbc` reads as `NaN`. -/
theorem getCurVerAppUsedCount_spec_witness :
    getCurVerAppUsedCount emptyCache "4.0.0" = some 0 ∧
    getCurVerAppUsedCount cacheAbc "4.0.0" = none :=
  ⟨(getCurVerAppUsedCount_spec emptyCache "4.0.0").1 rfl,
   (getCurVerAppUsedCount_spec cacheAbc "4.0.0").2.2 "abc" (by decide)
     (by decide) (by decide)⟩

/-- Counterexample to C7 as stated: the stored string "abc" does not parse
as an integer, yet the read is `NaN` rather than 0. -/
theorem getCurVerAppUsedCount_cex :
    cacheAbc.appUsedCount "4.0.0" = some "abc" ∧
    getCurVerAppUsedCount cacheAbc "4.0.0" = none ∧
    getCurVerAppUsedCount cacheAbc "4.0.0" ≠ some 0 := by
  refine ⟨by decide, by decide, by decide⟩

/-! ## Theme resolver (claim C9) -/

/-- C9 (amended): an explicit configuration override fixes the initially
resolved value regardless of the persisted string, but the resolver
registers the live color-scheme listener whenever the platform supports
it, independently of the override. -/
theorem darkTheme_override_spec (cached : Option String) (media : MediaEnv) :
    (detectDarkTheme (some "dark") cached media).1 = true ∧
    (detectDarkTheme (some "light") cached media).1 = false ∧
    (detectDarkTheme (some "dark") cached media).2 =
      (media.supported && media.hasAddEventListener) ∧
    (detectDarkTheme (some "light") cached media).2 =
      (media.supported && media.hasAddEventListener) := by
  have h1 : (strTruthy (some "dark") &&
      (jsToLower ((some "dark" : Option String).getD "") == "dark")) = true := by
    decide
  have h2 : (strTruthy (some "light") &&
      (jsToLower ((some "light" : Option String).getD "") == "dark")) = false := by
    decide
  have h3 : (strTruthy (some "light") &&
      (jsToLower ((some "light" : Option String).getD "") == "light")) = true := by
    decide
  unfold detectDarkTheme detectDarkThemeChange
  rw [h1, h2, h3]
  rcases media with ⟨sup, m, lis⟩
  cases sup <;> simp

/-- Counterexample to C9 as stated: with the override "dark" configured
and a live media query, the listener is registered and a change event to
light flips the resolved value to false. -/
theorem darkTheme_live_change_cex :
    (detectDarkTheme (some "dark") (some "false") mediaLive).1 = true ∧
    (detectDarkTheme (some "dark") (some "false") mediaLive).2 = true ∧
    onColorSchemeChange (detectDarkTheme (some "dark") (some "false") mediaLive).2
      (detectDarkTheme (some "dark") (some "false") mediaLive).1 false = false := by
  refine ⟨by decide, by decide, by decide⟩

/-! ## Navigation interceptor (claims C1, C2) -/

/-- Fields of the session state untouched (or determined) by the
route-flag updates at the head of the subscription body. -/
theorem updateRouteFlags_fields (s : AppState) (ev : NavEvent) :
    (updateRouteFlags s ev).isFirstNavigation = s.isFirstNavigation ∧
    (updateRouteFlags s ev).isBrowser = s.isBrowser ∧
    (updateRouteFlags s ev).cache = s.cache ∧
    (updateRouteFlags s ev).curVer = s.curVer ∧
    (updateRouteFlags s ev).curVerAppUsedCount = s.curVerAppUsedCount ∧
    (updateRouteFlags s ev).isAppUsedBefore = s.isAppUsedBefore ∧
    (updateRouteFlags s ev).isHomePage = (ev.pageType == some "home-page") := by
  unfold updateRouteFlags
  dsimp only
  split <;> exact ⟨rfl, rfl, rfl, rfl, rfl, rfl, rfl⟩

/-- With the first-navigation guard already spent, no branch fires and the
decision chain leaves the state alone. -/
theorem navDecision_guard_false (env : Env) (s : AppState)
    (h : s.isFirstNavigation = false) :
    navDecision env s = (s, NavAction.noAction) := by
  have h1 : firstUseRedirectCond s = false := by
    simp [firstUseRedirectCond, h]
  have h2 : sharePromptCond env s = false := by
    simp [sharePromptCond, h]
  unfold navDecision
  simp [h1, h2, h]

/-- With the first-navigation guard up, some branch fires and the guard
comes down. -/
theorem navDecision_guard_true (env : Env) (s : AppState)
    (h : s.isFirstNavigation = true) :
    (navDecision env s).2 ≠ NavAction.noAction ∧
    (navDecision env s).1.isFirstNavigation = false := by
  unfold navDecision
  by_cases h1 : firstUseRedirectCond s = true
  · simp [h1]
  · by_cases h2 : sharePromptCond env s = true
    · simp [h1, h2]
    · simp [h1, h2, h]

/-- One navigation step with the guard spent: no action, guard stays
spent. -/
theorem navStep_guard_false (s : AppState) (p : Env × NavEvent)
    (h : s.isFirstNavigation = false) :
    (navStep s p).2 = NavAction.noAction ∧
    (navStep s p).1.isFirstNavigation = false := by
  have hf := (updateRouteFlags_fields s p.2).1
  have hd := navDecision_guard_false p.1 (updateRouteFlags s p.2) (hf.trans h)
  constructor
  · show (navDecision p.1 (updateRouteFlags s p.2)).2 = NavAction.noAction
    rw [hd]
  · show (navDecision p.1 (updateRouteFlags s p.2)).1.isFirstNavigation = false
    rw [hd]
    exact hf.trans h

/-- Every trace from a spent-guard state is silent. -/
theorem navTrace_guard_false :
    ∀ (ps : List (Env × NavEvent)) (s : AppState), s.isFirstNavigation = false →
      navTrace s ps = List.replicate ps.length NavAction.noAction := by
  intro ps
  induction ps with
  | nil => intro s _; rfl
  | cons p ps ih =>
    intro s h
    have hs := navStep_guard_false s p h
    simp only [navTrace, List.length_cons, List.replicate_succ]
    rw [hs.1, ih _ hs.2]

/-- C1: within one session the interceptor's branches fire at most once in
total; exactly one branch fires on the first navigation-completed event,
after it the in-memory first-navigation guard is false, and every later
event produces no action. -/
theorem navPolicy_fires_once (s : AppState) (p : Env × NavEvent)
    (ps : List (Env × NavEvent)) (h : s.isFirstNavigation = true) :
    (navStep s p).2 ≠ NavAction.noAction ∧
    (navStep s p).1.isFirstNavigation = false ∧
    navTrace s (p :: ps) =
      (navStep s p).2 :: List.replicate ps.length NavAction.noAction := by
  have hf := (updateRouteFlags_fields s p.2).1
  have hg := navDecision_guard_true p.1 (updateRouteFlags s p.2) (hf.trans h)
  have hg2 : (navStep s p).1.isFirstNavigation = false := hg.2
  refine ⟨hg.1, hg2, ?_⟩
  simp only [navTrace]
  rw [navTrace_guard_false ps _ hg2]

/-- Witness for C1: a fresh session over the used-marker store, followed
by a second home navigation that produces nothing. -/
theorem navPolicy_fires_once_witness :
    (navStep stateW pHome).2 ≠ NavAction.noAction ∧
    (navStep stateW pHome).1.isFirstNavigation = false ∧
    navTrace stateW [pHome, pHome] =
      (navStep stateW pHome).2 :: List.replicate 1 NavAction.noAction :=
  navPolicy_fires_once stateW pHome [pHome] rfl

/-- Shape of the decision pair when the first-ever-use redirect guard
holds. -/
theorem navDecision_redirect (env : Env) (t : AppState)
    (h : firstUseRedirectCond t = true) :
    navDecision env t =
      ({ t with
          isFirstNavigation := false,
          cache := increaseAppUsedCount t.isBrowser t.curVer t.curVerAppUsedCount
            t.isAppUsedBefore t.cache,
          hideSponsorSection := true }, NavAction.redirectToAbout) := by
  unfold navDecision
  simp [h]

/-- Incrementing from the session count 0 writes the string "1" and the
entry reads back as the number 1. -/
theorem increase_read_back (curVer : String) (cache : CacheStore) (flag : Bool) :
    (increaseAppUsedCount true curVer (some 0) flag cache).appUsedCount curVer
      = some "1" ∧
    getCurVerAppUsedCount (increaseAppUsedCount true curVer (some 0) flag cache)
      curVer = some 1 := by
  have hwrite : (increaseAppUsedCount true curVer (some 0) flag cache).appUsedCount
      curVer = some (jsNumToString (jsAdd (some 0) (some 1))) := by
    unfold increaseAppUsedCount
    cases flag <;> simp
  have hone : some (jsNumToString (jsAdd (some 0) (some 1))) = some "1" := by
    decide
  constructor
  · rw [hwrite, hone]
  · unfold getCurVerAppUsedCount
    rw [hwrite, hone]
    decide

/-- C2: on the first navigation of a browser session landing on the home
page with session count 0 and used-before true, the interceptor redirects
to the about route, persists the count 1 for the current version, and
suppresses the sponsor section for the session. -/
theorem firstUseRedirect_effects (env : Env) (s : AppState) (ev : NavEvent)
    (hb : s.isBrowser = true) (hf : s.isFirstNavigation = true)
    (hc : s.curVerAppUsedCount = some 0) (hu : s.isAppUsedBefore = true)
    (hp : ev.pageType = some "home-page") :
    (onNavigationEnd env s ev).2 = NavAction.redirectToAbout ∧
    (onNavigationEnd env s ev).1.cache.appUsedCount s.curVer = some "1" ∧
    getCurVerAppUsedCount (onNavigationEnd env s ev).1.cache s.curVer = some 1 ∧
    (onNavigationEnd env s ev).1.hideSponsorSection = true := by
  obtain ⟨f1, f2, f3, f4, f5, f6, f7⟩ := updateRouteFlags_fields s ev
  have hcond : firstUseRedirectCond (updateRouteFlags s ev) = true := by
    unfold firstUseRedirectCond
    rw [f1, f2, f5, f6, f7, hb, hf, hu, hc, hp]
    decide
  have hred := navDecision_redirect env (updateRouteFlags s ev) hcond
  have hinc : increaseAppUsedCount (updateRouteFlags s ev).isBrowser
      (updateRouteFlags s ev).curVer (updateRouteFlags s ev).curVerAppUsedCount
      (updateRouteFlags s ev).isAppUsedBefore (updateRouteFlags s ev).cache
      = increaseAppUsedCount true s.curVer (some 0) true s.cache := by
    rw [f2, f3, f4, f5, f6, hb, hc, hu]
  have hcache : (onNavigationEnd env s ev).1.cache
      = increaseAppUsedCount true s.curVer (some 0) true s.cache := by
    show (navDecision env (updateRouteFlags s ev)).1.cache = _
    rw [hred]
    exact hinc
  refine ⟨?_, ?_, ?_, ?_⟩
  · show (navDecision env (updateRouteFlags s ev)).2 = NavAction.redirectToAbout
    rw [hred]
  · rw [hcache]
    exact (increase_read_back s.curVer s.cache true).1
  · rw [hcache]
    exact (increase_read_back s.curVer s.cache true).2
  · show (navDecision env (updateRouteFlags s ev)).1.hideSponsorSection = true
    rw [hred]

/-- Witness for C2 on the concrete used-marker store. -/
theorem firstUseRedirect_effects_witness :
    (onNavigationEnd envOnline stateW evHome).2 = NavAction.redirectToAbout ∧
    (onNavigationEnd envOnline stateW evHome).1.cache.appUsedCount stateW.curVer
      = some "1" ∧
    getCurVerAppUsedCount (onNavigationEnd envOnline stateW evHome).1.cache
      stateW.curVer = some 1 ∧
    (onNavigationEnd envOnline stateW evHome).1.hideSponsorSection = true :=
  firstUseRedirect_effects envOnline stateW evHome rfl rfl (by decide) (by decide) rfl

/-! ## Cross-session monotonicity (claim C8) -/

/-- The two cache fields `increaseAppUsedCount` can touch, in a browser. -/
theorem increase_writes (curVer : String) (c : JsNum) (flag : Bool)
    (cache : CacheStore) :
    (increaseAppUsedCount true curVer c flag cache).appUsedCount
      = (fun v => if v = curVer then some (jsNumToString (jsAdd c (some 1)))
          else cache.appUsedCount v) ∧
    (increaseAppUsedCount true curVer c flag cache).appUsed
      = (if flag = true then cache.appUsed else some "true") := by
  unfold increaseAppUsedCount
  cases flag <;> exact ⟨rfl, rfl⟩

/-- Outside a browser `increaseAppUsedCount` writes nothing. -/
theorem increase_not_browser (curVer : String) (c : JsNum) (flag : Bool)
    (cache : CacheStore) :
    increaseAppUsedCount false curVer c flag cache = cache := rfl

/-- Count entry of any version after an increment in a browser. -/
theorem increase_entry (curVer : String) (c : JsNum) (flag : Bool)
    (cache : CacheStore) (v : String) :
    (increaseAppUsedCount true curVer c flag cache).appUsedCount v
      = if v = curVer then some (jsNumToString (jsAdd c (some 1)))
        else cache.appUsedCount v := by
  obtain ⟨hw1, _⟩ := increase_writes curVer c flag cache
  rw [hw1]

/-- A non-empty character list has a false `isEmpty`. -/
theorem isEmpty_false_of_ne_nil {l : List Char} (h : l ≠ []) :
    l.isEmpty = false := by
  cases l with
  | nil => exact absurd rfl h
  | cons a t => rfl

/-- Reading back the current-version entry right after an increment from
the integer session count `n`. -/
theorem increase_read_back_some (curVer : String) (cache : CacheStore)
    (flag : Bool) (n : Int) (h : 0 ≤ n + 1) :
    getCurVerAppUsedCount (increaseAppUsedCount true curVer (some n) flag cache)
      curVer = some (n + 1) := by
  unfold getCurVerAppUsedCount
  rw [increase_entry curVer (some n) flag cache curVer, if_pos rfl]
  have hadd : jsAdd (some n) (some 1) = some (n + 1) := rfl
  rw [hadd]
  have hne : (jsNumToString (some (n + 1))).data.isEmpty = false :=
    isEmpty_false_of_ne_nil (jsNumToString_data_ne_nil (some (n + 1)))
  show (if (jsNumToString (some (n + 1))).data.isEmpty = true then (some 0 : JsNum)
      else jsParseInt (jsNumToString (some (n + 1)))) = some (n + 1)
  rw [hne, if_neg (by simp)]
  exact jsParseInt_jsNumToString_nonneg (n + 1) h

/-- Writing the prompt-shown marker does not change the used-before
classification: it reads only the count entries and the `appUsed` flag. -/
theorem hasUsedBefore_shownIn_write (curVer : String) (cache : CacheStore)
    (x : Option JsNum) :
    hasUsedBeforeNow curVer { cache with socialSharingSheetShownIn := x }
      = hasUsedBeforeNow curVer cache := rfl

/-- One increment performed with the session count read from the same
store preserves the used-before classification. -/
theorem increase_preserves_used (curVer : String) (cache : CacheStore)
    (flag : Bool) (h : hasUsedBeforeNow curVer cache = true) :
    hasUsedBeforeNow curVer
      (increaseAppUsedCount true curVer (getCurVerAppUsedCount cache curVer)
        flag cache) = true := by
  obtain ⟨_, hw2⟩ :=
    increase_writes curVer (getCurVerAppUsedCount cache curVer) flag cache
  cases flag with
  | false =>
    unfold hasUsedBeforeNow
    rw [checkAppUsedBefore_browser_eq]
    simp only [Bool.false_eq_true, if_false] at hw2
    simp [hw2]
  | true =>
    simp only [if_pos rfl] at hw2
    unfold hasUsedBeforeNow at h ⊢
    rw [checkAppUsedBefore_browser_eq] at h ⊢
    rw [hw2]
    simp only [Bool.or_eq_true] at h ⊢
    rcases h with (hgt | happ) | hscan
    · left; left
      cases hc0 : getCurVerAppUsedCount cache curVer with
      | none => rw [hc0] at hgt; exact absurd hgt (by decide)
      | some n =>
        rw [hc0] at hgt
        have hn : 0 < n := by simpa [jsGt, jsLt] using hgt
        rw [increase_read_back_some curVer cache true n (by omega)]
        have hpos : (0 : Int) < n + 1 := by omega
        simpa [jsGt, jsLt] using hpos
    · left; right; exact happ
    · right
      rw [List.any_eq_true] at hscan ⊢
      obtain ⟨v, hv, htr⟩ := hscan
      refine ⟨v, hv, ?_⟩
      rw [increase_entry curVer (getCurVerAppUsedCount cache curVer) true cache v]
      by_cases hveq : v = curVer
      · rw [if_pos hveq]
        have hne := jsNumToString_data_ne_nil
          (jsAdd (getCurVerAppUsedCount cache curVer) (some 1))
        simp [strTruthy, isEmpty_false_of_ne_nil hne]
      · rw [if_neg hveq]
        exact htr

/-- Shape of the decision pair when the share-prompt guard fires. -/
theorem navDecision_share (env : Env) (t : AppState)
    (h1 : firstUseRedirectCond t = false) (h2 : sharePromptCond env t = true) :
    navDecision env t =
      ({ t with
          isFirstNavigation := false,
          cache := { (increaseAppUsedCount t.isBrowser t.curVer t.curVerAppUsedCount
              t.isAppUsedBefore t.cache) with
            socialSharingSheetShownIn := some t.curVerAppUsedCount },
          hideSponsorSection := true }, NavAction.showShareSheet) := by
  unfold navDecision
  simp [h1, h2]

/-- Shape of the decision pair when only the default branch fires. -/
theorem navDecision_default (env : Env) (t : AppState)
    (h1 : firstUseRedirectCond t = false) (h2 : sharePromptCond env t = false)
    (h3 : t.isFirstNavigation = true) :
    navDecision env t =
      ({ t with
          isFirstNavigation := false,
          cache := increaseAppUsedCount t.isBrowser t.curVer t.curVerAppUsedCount
            t.isAppUsedBefore t.cache }, NavAction.defaultIncrement) := by
  unfold navDecision
  simp [h1, h2, h3]

/-- One navigation step preserves the session invariant that ties the
readonly session count to the store and keeps the used-before
classification true. -/
theorem navStep_preserves (curVer : String) (s : AppState) (p : Env × NavEvent)
    (h1 : s.curVer = curVer) (h2 : hasUsedBeforeNow curVer s.cache = true)
    (h3 : s.isFirstNavigation = true → s.isBrowser = true →
      s.curVerAppUsedCount = getCurVerAppUsedCount s.cache curVer) :
    (navStep s p).1.curVer = curVer ∧
    hasUsedBeforeNow curVer (navStep s p).1.cache = true ∧
    ((navStep s p).1.isFirstNavigation = true → (navStep s p).1.isBrowser = true →
      (navStep s p).1.curVerAppUsedCount
        = getCurVerAppUsedCount (navStep s p).1.cache curVer) := by
  obtain ⟨f1, f2, f3, f4, f5, f6, f7⟩ := updateRouteFlags_fields s p.2
  have g1 : (updateRouteFlags s p.2).curVer = curVer := f4.trans h1
  have g2 : hasUsedBeforeNow curVer (updateRouteFlags s p.2).cache = true := by
    rw [f3]; exact h2
  have g3 : (updateRouteFlags s p.2).isFirstNavigation = true →
      (updateRouteFlags s p.2).isBrowser = true →
      (updateRouteFlags s p.2).curVerAppUsedCount
        = getCurVerAppUsedCount (updateRouteFlags s p.2).cache curVer := by
    intro ha hb
    rw [f5, f3]
    exact h3 (f1 ▸ ha) (f2 ▸ hb)
  have hstepeq : navStep s p = navDecision p.1 (updateRouteFlags s p.2) := rfl
  by_cases hc1 : firstUseRedirectCond (updateRouteFlags s p.2) = true
  · have hfacts : (updateRouteFlags s p.2).isBrowser = true ∧
        (updateRouteFlags s p.2).isFirstNavigation = true := by
      simp only [firstUseRedirectCond, Bool.and_eq_true] at hc1
      exact ⟨hc1.1.1.1.1, hc1.1.1.2⟩
    have hcnt := g3 hfacts.2 hfacts.1
    have hstep := hstepeq.trans
      (navDecision_redirect p.1 (updateRouteFlags s p.2) hc1)
    refine ⟨by rw [hstep]; exact g1, ?_, by rw [hstep]; intro hfa; exact absurd hfa (by simp)⟩
    have hcache : (navStep s p).1.cache
        = increaseAppUsedCount (updateRouteFlags s p.2).isBrowser
          (updateRouteFlags s p.2).curVer (updateRouteFlags s p.2).curVerAppUsedCount
          (updateRouteFlags s p.2).isAppUsedBefore (updateRouteFlags s p.2).cache := by
      rw [hstep]
    rw [hcache, hfacts.1, g1, hcnt]
    exact increase_preserves_used curVer (updateRouteFlags s p.2).cache
      (updateRouteFlags s p.2).isAppUsedBefore g2
  · by_cases hc2 : sharePromptCond p.1 (updateRouteFlags s p.2) = true
    · have hfacts : (updateRouteFlags s p.2).isBrowser = true ∧
          (updateRouteFlags s p.2).isFirstNavigation = true := by
        simp only [sharePromptCond, Bool.and_eq_true] at hc2
        exact ⟨hc2.1.1.1, hc2.1.2⟩
      have hcnt := g3 hfacts.2 hfacts.1
      have hc1f : firstUseRedirectCond (updateRouteFlags s p.2) = false := by
        simpa using hc1
      have hstep := hstepeq.trans
        (navDecision_share p.1 (updateRouteFlags s p.2) hc1f hc2)
      refine ⟨by rw [hstep]; exact g1, ?_,
        by rw [hstep]; intro hfa; exact absurd hfa (by simp)⟩
      have hcache : (navStep s p).1.cache
          = { (increaseAppUsedCount (updateRouteFlags s p.2).isBrowser
              (updateRouteFlags s p.2).curVer (updateRouteFlags s p.2).curVerAppUsedCount
              (updateRouteFlags s p.2).isAppUsedBefore (updateRouteFlags s p.2).cache) with
            socialSharingSheetShownIn := some (updateRouteFlags s p.2).curVerAppUsedCount } := by
        rw [hstep]
      rw [hcache, hasUsedBefore_shownIn_write, hfacts.1, g1, hcnt]
      exact increase_preserves_used curVer (updateRouteFlags s p.2).cache
        (updateRouteFlags s p.2).isAppUsedBefore g2
    · by_cases hc3 : (updateRouteFlags s p.2).isFirstNavigation = true
      · have hc1f : firstUseRedirectCond (updateRouteFlags s p.2) = false := by
          simpa using hc1
        have hc2f : sharePromptCond p.1 (updateRouteFlags s p.2) = false := by
          simpa using hc2
        have hstep := hstepeq.trans
          (navDecision_default p.1 (updateRouteFlags s p.2) hc1f hc2f hc3)
        refine ⟨by rw [hstep]; exact g1, ?_,
          by rw [hstep]; intro hfa; exact absurd hfa (by simp)⟩
        have hcache : (navStep s p).1.cache
            = increaseAppUsedCount (updateRouteFlags s p.2).isBrowser
              (updateRouteFlags s p.2).curVer (updateRouteFlags s p.2).curVerAppUsedCount
              (updateRouteFlags s p.2).isAppUsedBefore (updateRouteFlags s p.2).cache := by
          rw [hstep]
        cases hbr : (updateRouteFlags s p.2).isBrowser with
        | false =>
          rw [hcache, hbr, increase_not_browser]
          exact g2
        | true =>
          have hcnt := g3 hc3 hbr
          rw [hcache, hbr, g1, hcnt]
          exact increase_preserves_used curVer (updateRouteFlags s p.2).cache
            (updateRouteFlags s p.2).isAppUsedBefore g2
      · have hc3f : (updateRouteFlags s p.2).isFirstNavigation = false := by
          simpa using hc3
        have hstep := hstepeq.trans
          (navDecision_guard_false p.1 (updateRouteFlags s p.2) hc3f)
        refine ⟨by rw [hstep]; exact g1, by rw [hstep]; exact g2,
          by rw [hstep]; exact g3⟩

/-- A whole event sequence preserves the used-before classification of
the session's store. -/
theorem navRun_preserves (curVer : String) :
    ∀ (evs : List (Env × NavEvent)) (s : AppState),
      s.curVer = curVer → hasUsedBeforeNow curVer s.cache = true →
      (s.isFirstNavigation = true → s.isBrowser = true →
        s.curVerAppUsedCount = getCurVerAppUsedCount s.cache curVer) →
      hasUsedBeforeNow curVer (navRun s evs).cache = true := by
  intro evs
  induction evs with
  | nil => intro s _ h2 _; exact h2
  | cons p ps ih =>
    intro s h1 h2 h3
    obtain ⟨g1, g2, g3⟩ := navStep_preserves curVer s p h1 h2 h3
    exact ih _ g1 g2 g3

/-- A whole session preserves the used-before classification. -/
theorem runSession_preserves (curVer : String) (isBrowser : Bool)
    (cfg : Option String) (cache : CacheStore) (evs : List (Env × NavEvent))
    (h : hasUsedBeforeNow curVer cache = true) :
    hasUsedBeforeNow curVer (runSession curVer isBrowser cfg cache evs) = true := by
  apply navRun_preserves curVer evs (initAppState curVer isBrowser cfg cache) rfl h
  intro _ hbrow
  have hb : isBrowser = true := hbrow
  subst hb
  rfl

/-- C8: once the used-before classification of an installation's store is
true, it stays true across any further list of sessions run by the core:
no operation of the component resets it. -/
theorem hasUsedBefore_monotone (curVer : String) (cache : CacheStore)
    (sessions : List (Bool × Option String × List (Env × NavEvent)))
    (h : hasUsedBeforeNow curVer cache = true) :
    hasUsedBeforeNow curVer (runSessions curVer cache sessions) = true := by
  have main : ∀ (ss : List (Bool × Option String × List (Env × NavEvent)))
      (c : CacheStore), hasUsedBeforeNow curVer c = true →
      hasUsedBeforeNow curVer (runSessions curVer c ss) = true := by
    intro ss
    induction ss with
    | nil => intro c hc; exact hc
    | cons sess rest ih =>
      rcases sess with ⟨isB, cfg, evs⟩
      intro c hc
      exact ih _ (runSession_preserves curVer isB cfg c evs hc)
  exact main sessions cache h

/-- Witness for C8: the used-marker store stays classified as used after
a browser session with one home navigation. -/
theorem hasUsedBefore_monotone_witness :
    hasUsedBeforeNow "4.0.0"
      (runSessions "4.0.0" cacheUsedFlag [(true, none, [pHome])]) = true :=
  hasUsedBefore_monotone "4.0.0" cacheUsedFlag [(true, none, [pHome])] (by decide)

/-! ## Branch exclusivity (claim C10) -/

/-- C10: the first-ever-use redirect guard and the share-prompt guard are
never both true: the redirect guard pins the count to exactly 0 and the
share predicate rejects the count 0 outright. -/
theorem redirect_share_mutually_exclusive (env : Env) (s : AppState) :
    (firstUseRedirectCond s && sharePromptCond env s) = false ∧
    (∀ cache : CacheStore, shouldShowSocialSharingSheet (some 0) env cache = false) := by
  constructor
  · by_cases h : firstUseRedirectCond s = true
    · have h0 : s.curVerAppUsedCount = some 0 := by
        simp only [firstUseRedirectCond, Bool.and_eq_true, beq_iff_eq] at h
        exact h.1.2
      have hs : sharePromptCond env s = false := by
        unfold sharePromptCond
        rw [h0]
        unfold shouldShowSocialSharingSheet
        have : jsLt (some 0) (some 5) = true := by decide
        simp [this]
      simp [hs]
    · simp only [Bool.not_eq_true] at h
      simp [h]
  · intro cache
    unfold shouldShowSocialSharingSheet
    have : jsLt (some 0) (some 5) = true := by decide
    simp [this]

end AppShell
